import Mathlib

/-
Verification development for the scrcpy-macros controller (src/main.py).
The Python source is shallowly embedded: Python floats are modelled as
exact rationals (ℚ), `int(...)` as truncation toward zero, `//` as
floor division on ℤ, Qt rectangles as rational rectangles, and the
`subprocess.Popen` calls issued by the dispatch helpers as the list of
processes they spawn.  Object identity inside the keymap list is
modelled by list indices (Python `list.remove(obj)` removes the object
itself, i.e. the entry at its index, since `Keymap` has no custom
equality).
-/

/-- Python `int(q)` on a rational: truncation toward zero. -/
def pyTrunc (q : ℚ) : ℤ :=
  if 0 ≤ q then ⌊q⌋ else ⌈q⌉

/-- Python `a // b` on integers: floor division. -/
def pyFloorDiv (a b : ℤ) : ℤ :=
  Int.fdiv a b

/-- `SCRCPY_NATIVE_WIDTH = 1920` (main.py line 66). -/
def SCRCPY_NATIVE_WIDTH : ℚ := 1920

/-- `SCRCPY_NATIVE_HEIGHT = 1080` (main.py line 67). -/
def SCRCPY_NATIVE_HEIGHT : ℚ := 1080

/-- `SCRCPY_ASPECT_RATIO = 16.0 / 9.0` (main.py line 65); renamed slightly. -/
def SCRCPY_ASPECT_VALUE : ℚ := 16 / 9

/-- Qt key code `Qt.Key_Escape` (0x01000000). -/
def Qt_Key_Escape : ℤ := 16777216

/-- Qt key code `Qt.Key_Shift` (0x01000020). -/
def Qt_Key_Shift : ℤ := 16777248

/-- Qt key code `Qt.Key_A` (0x41). -/
def Qt_Key_A : ℤ := 65

/-- Qt key code `Qt.Key_K` (0x4B). -/
def Qt_Key_K : ℤ := 75

/-- The hardcoded device address used by both dispatch helpers. -/
def DEVICE_IP : String := "192.168.1.38"

/-- The `Keymap` record of main.py: normalized size/position are `QSizeF` /
`QPointF` pairs of floats (here rationals), `keycombo` a list of Qt key
codes, `type` the shape tag. -/
structure Keymap where
  normalized_size : ℚ × ℚ
  keycombo : List ℤ
  normalized_position : ℚ × ℚ
  type : String
deriving DecidableEq

/-- A loaded JSON record as seen by `Keymap.from_dict`: each field may be
missing (Python `KeyError`), and the coordinate arrays may be too short
(Python `IndexError` inside `QSizeF`/`QPointF` construction). -/
structure RawRecord where
  normalized_size : Option (List ℚ)
  keycombo : Option (List ℤ)
  normalized_position : Option (List ℚ)
  type : Option String
deriving DecidableEq

/-- `Keymap.to_dict` (main.py lines 97-104). -/
def Keymap.to_dict (km : Keymap) : RawRecord where
  normalized_size := some [km.normalized_size.1, km.normalized_size.2]
  keycombo := some km.keycombo
  normalized_position := some [km.normalized_position.1, km.normalized_position.2]
  type := some km.type

/-- `Keymap.from_dict` (main.py lines 106-114): `none` models the record
raising (missing key or a coordinate array with fewer than two entries);
extra array entries are ignored, as by `tuple(...)[0]`/`[1]`. -/
def Keymap.from_dict (d : RawRecord) : Option Keymap :=
  match d.normalized_size, d.keycombo, d.normalized_position, d.type with
  | some (nsw :: nsh :: _), some kc, some (npx :: npy :: _), some ty =>
      some { normalized_size := (nsw, nsh), keycombo := kc,
             normalized_position := (npx, npy), type := ty }
  | _, _, _, _ => none

/-- The list comprehension `[Keymap.from_dict(km_data) for km_data in data]`:
it either parses every record or raises, so the result is all-or-nothing. -/
def parseAllRecords : List RawRecord → Option (List Keymap)
  | [] => some []
  | d :: rest =>
      match Keymap.from_dict d, parseAllRecords rest with
      | some km, some kms => some (km :: kms)
      | _, _ => none

/-- `MyQtApp.load_keymaps_from_local_json` (main.py lines 948-979), for an
existing file whose JSON text parses to the record list `data`: the whole
comprehension runs inside one `try`, so any record that raises aborts the
load and the handler leaves `loaded_keymaps = []`. -/
def load_keymaps_from_local_json (data : List RawRecord) : List Keymap :=
  match parseAllRecords data with
  | some kms => kms
  | none => []

/-- `MyQtApp.save_keymaps_to_local_json` (main.py lines 938-946): the JSON
file contents are the serialized records in list order (the json layer
round-trips numbers exactly and is modelled as the identity). -/
def save_keymaps_to_local_json (keymaps_list : List Keymap) : List RawRecord :=
  keymaps_list.map Keymap.to_dict

/-- A subprocess spawned by a dispatch helper (`subprocess.Popen(adb_cmd ...)`). -/
inductive SpawnedProcess where
  | adbKeyevent (deviceIp : String) (keycode : String)
  | adbTap (deviceIp : String) (displayId : ℤ) (x y : ℤ)
deriving DecidableEq

/-- `MyQtApp.send_adb_keyevent` (main.py lines 878-903): if the current page
has a detected display id, spawn one fresh `adb shell input keyevent`
process; otherwise do nothing. -/
def send_adb_keyevent (scrcpy_display_id : Option ℤ) (keycode : String) :
    List SpawnedProcess :=
  match scrcpy_display_id with
  | some _ => [SpawnedProcess.adbKeyevent DEVICE_IP keycode]
  | none => []

/-- `MyQtApp.send_scrcpy_tap` (main.py lines 905-936): if the current page
has a detected display id, spawn one fresh `adb shell input -d <id> tap`
process; otherwise do nothing. -/
def send_scrcpy_tap (scrcpy_display_id : Option ℤ) (x y : ℤ) :
    List SpawnedProcess :=
  match scrcpy_display_id with
  | some display_id => [SpawnedProcess.adbTap DEVICE_IP display_id x y]
  | none => []

/-- The play-mode match test of `MyQtApp.keyPressEvent` (main.py line 1208):
`len(keymap.keycombo) == 1 and event.key() == keymap.keycombo[0]`. -/
def matchesKeymap (key : ℤ) (km : Keymap) : Bool :=
  km.keycombo.length == 1 && km.keycombo.head? == some key

/-- The native tap center computed at main.py lines 1210-1217:
`int(pos * native + size * native / 2)` per axis. -/
def tapCenter (km : Keymap) : ℤ × ℤ :=
  (pyTrunc (km.normalized_position.1 * SCRCPY_NATIVE_WIDTH +
            km.normalized_size.1 * SCRCPY_NATIVE_WIDTH / 2),
   pyTrunc (km.normalized_position.2 * SCRCPY_NATIVE_HEIGHT +
            km.normalized_size.2 * SCRCPY_NATIVE_HEIGHT / 2))

/-- `MyQtApp.keyPressEvent` in play mode (main.py lines 1192-1227): Escape
dispatches a back keyevent; otherwise the keymap list is scanned in order
and the first match dispatches one tap and consumes the event.  Returns the
spawned processes and whether the event was accepted. -/
def MyQtApp.keyPressEvent_play (scrcpy_display_id : Option ℤ)
    (keymaps : List Keymap) (key : ℤ) : List SpawnedProcess × Bool :=
  if key = Qt_Key_Escape then
    (send_adb_keyevent scrcpy_display_id "KEYCODE_BACK", true)
  else
    match keymaps.find? (matchesKeymap key) with
    | some km =>
        (send_scrcpy_tap scrcpy_display_id (tapCenter km).1 (tapCenter km).2, true)
    | none => ([], false)

/-- The geometry set on the global overlay. -/
structure OverlayGeometry where
  x : ℤ
  y : ℤ
  width : ℤ
  height : ℤ
deriving DecidableEq

/-- `MyQtApp.update_global_overlay_geometry` (main.py lines 1133-1190) for an
active page whose container has global origin `(gx, gy)` and size
`available_width × available_height`; the aspect ratio (fixed to
`SCRCPY_ASPECT_VALUE` in the source) is a parameter `r`. -/
def update_global_overlay_geometry (r : ℚ) (gx gy : ℤ)
    (available_width available_height : ℤ) : OverlayGeometry :=
  let target_height_by_width : ℤ := pyTrunc ((available_width : ℚ) / r)
  let target_width_by_height : ℤ := pyTrunc ((available_height : ℚ) * r)
  let active_display_width : ℤ :=
    if target_height_by_width ≤ available_height then available_width
    else target_width_by_height
  let active_display_height : ℤ :=
    if target_height_by_width ≤ available_height then target_height_by_width
    else available_height
  let offset_x : ℤ := pyFloorDiv (available_width - active_display_width) 2
  let offset_y : ℤ := pyFloorDiv (available_height - active_display_height) 2
  { x := gx + offset_x, y := gy + offset_y,
    width := active_display_width, height := active_display_height }

/-- A rational rectangle (`QRectF`). -/
structure RectF where
  x : ℚ
  y : ℚ
  w : ℚ
  h : ℚ

/-- Lower end of a possibly negative-extent span. -/
def spanLow (a w : ℚ) : ℚ := if w < 0 then a + w else a

/-- Upper end of a possibly negative-extent span. -/
def spanHigh (a w : ℚ) : ℚ := if w < 0 then a else a + w

/-- `QRectF.contains(QPoint)`: inside or on the edge; degenerate rectangles
contain nothing (Qt swaps negative extents and rejects null spans). -/
def qrectContains (r : RectF) (px py : ℚ) : Bool :=
  decide (spanLow r.x r.w ≠ spanHigh r.x r.w) &&
  decide (spanLow r.x r.w ≤ px) && decide (px ≤ spanHigh r.x r.w) &&
  decide (spanLow r.y r.h ≠ spanHigh r.y r.h) &&
  decide (spanLow r.y r.h ≤ py) && decide (py ≤ spanHigh r.y r.h)

/-- The pixel rectangle of a keymap inside a `width × height` overlay
(the conversion repeated at main.py lines 300-304, 329-334). -/
def keymapPixelRect (width height : ℤ) (km : Keymap) : RectF where
  x := km.normalized_position.1 * width
  y := km.normalized_position.2 * height
  w := km.normalized_size.1 * width
  h := km.normalized_size.2 * height

/-- The delete-affordance rectangle of the selected keymap
(main.py lines 306-312): a 25 px square centered on the shape's
top-right corner. -/
def xButtonRect (width height : ℤ) (km : Keymap) : RectF :=
  let r := keymapPixelRect width height km
  { x := r.x + r.w - 25 / 2, y := r.y - 25 / 2, w := 25, h := 25 }

/-- The transient editing state of `OverlayWidget`.  The dragging and
selection references are list indices (Python holds object references;
objects are distinct, so a reference determines its index). -/
structure OverlayState where
  keymaps : List Keymap
  edit_mode_active : Bool
  dragging_keymap : Option ℕ
  creating_keymap : Bool
  drag_start_pos_local : ℤ × ℤ
  keymap_original_pixel_pos : ℤ × ℤ
  selected_keymap_for_combo_edit : Option ℕ
  pending_modifier_key : Option ℤ

/-- Replace the element at one index of a list (mutation of the keymap
object referenced by `_dragging_keymap`). -/
def listModify (l : List α) (i : ℕ) (f : α → α) : List α :=
  match l, i with
  | [], _ => []
  | a :: t, 0 => f a :: t
  | a :: t, n + 1 => a :: listModify t n f

/-- The minimal placeholder keymap appended on pointer-down over empty
space (main.py lines 346-351): normalized size `(0.01, 0.01)` at the
click point. -/
def creationPlaceholder (width height : ℤ) (pos : ℤ × ℤ) : Keymap where
  normalized_size := (1 / 100, 1 / 100)
  keycombo := []
  normalized_position := ((pos.1 : ℚ) / width, (pos.2 : ℚ) / height)
  type := "circle"

/-- `OverlayWidget.set_edit_mode` (main.py lines 155-178): when leaving
edit mode the transient references are cleared and `keymaps_changed` is
emitted with the (unchanged) keymap list; entering emits nothing.
Returns the new state and the emitted snapshots. -/
def OverlayWidget.set_edit_mode (active : Bool) (s : OverlayState) :
    OverlayState × List (List Keymap) :=
  if active then
    ({ s with edit_mode_active := true }, [])
  else
    ({ s with edit_mode_active := false,
              dragging_keymap := none,
              creating_keymap := false,
              selected_keymap_for_combo_edit := none,
              pending_modifier_key := none },
     [s.keymaps])

/-- The hit-testing loop of `OverlayWidget.mousePressEvent` (main.py lines
328-341): scan the keymaps in list order and return the first one whose
pixel rectangle contains the press position, with its index. -/
def findHitKeymap (width height : ℤ) (pos : ℤ × ℤ) :
    List Keymap → Option (ℕ × Keymap)
  | [] => none
  | km :: rest =>
      if qrectContains (keymapPixelRect width height km) pos.1 pos.2 then
        some (0, km)
      else
        (findHitKeymap width height pos rest).map (fun p => (p.1 + 1, p.2))

/-- `OverlayWidget.mousePressEvent` (main.py lines 282-355) for a
left-button press at `pos` on a `width × height` overlay.  Returns the
new state and the emitted snapshots. -/
def OverlayWidget.mousePressEvent (width height : ℤ) (pos : ℤ × ℤ)
    (s : OverlayState) : OverlayState × List (List Keymap) :=
  if s.edit_mode_active = false then (s, [])
  else
    let s0 := { s with drag_start_pos_local := pos }
    let xHit : Option ℕ :=
      match s0.selected_keymap_for_combo_edit with
      | some i =>
          match s0.keymaps.get? i with
          | some km =>
              if qrectContains (xButtonRect width height km) pos.1 pos.2 then
                some i
              else none
          | none => none
      | none => none
    match xHit with
    | some i =>
        let s1 := { s0 with keymaps := s0.keymaps.eraseIdx i,
                            selected_keymap_for_combo_edit := none }
        (s1, [s1.keymaps])
    | none =>
        let s1 := { s0 with selected_keymap_for_combo_edit := none }
        match findHitKeymap width height pos s1.keymaps with
        | some (i, km) =>
            ({ s1 with dragging_keymap := some i,
                       keymap_original_pixel_pos :=
                         (pyTrunc (km.normalized_position.1 * width),
                          pyTrunc (km.normalized_position.2 * height)) }, [])
        | none =>
            ({ s1 with creating_keymap := true,
                       keymaps := s1.keymaps ++ [creationPlaceholder width height pos],
                       dragging_keymap := some s1.keymaps.length }, [])

/-- `OverlayWidget.mouseMoveEvent` (main.py lines 357-399): the creation
drag resizes the placeholder to a square of side `min(|dx|, |dy|)` grown
toward the drag quadrant with a 10 px minimum side, and a move of an
existing keymap translates its position by the raw pixel delta; neither
branch clamps to the unit square. -/
def OverlayWidget.mouseMoveEvent (width height : ℤ) (pos : ℤ × ℤ)
    (s : OverlayState) : OverlayState :=
  if s.edit_mode_active = false then s
  else
    match s.dragging_keymap with
    | none => s
    | some i =>
        if s.creating_keymap then
          let dx := pos.1 - s.drag_start_pos_local.1
          let dy := pos.2 - s.drag_start_pos_local.2
          let side_length : ℤ := min |dx| |dy|
          let current_pixel_x :=
            if dx < 0 then s.drag_start_pos_local.1 - side_length
            else s.drag_start_pos_local.1
          let current_pixel_y :=
            if dy < 0 then s.drag_start_pos_local.2 - side_length
            else s.drag_start_pos_local.2
          let rawW : ℚ := (side_length : ℚ) / width
          let rawH : ℚ := (side_length : ℚ) / height
          let min_norm_size_w : ℚ := 10 / (width : ℚ)
          let min_norm_size_h : ℚ := 10 / (height : ℚ)
          let newW := if rawW < min_norm_size_w then min_norm_size_w else rawW
          let newH := if rawH < min_norm_size_h then min_norm_size_h else rawH
          { s with keymaps := listModify s.keymaps i (fun km =>
              { km with
                  normalized_position :=
                    ((current_pixel_x : ℚ) / width, (current_pixel_y : ℚ) / height),
                  normalized_size := (newW, newH) }) }
        else
          let delta := (pos.1 - s.drag_start_pos_local.1,
                        pos.2 - s.drag_start_pos_local.2)
          let new_pixel_x := s.keymap_original_pixel_pos.1 + delta.1
          let new_pixel_y := s.keymap_original_pixel_pos.2 + delta.2
          { s with keymaps := listModify s.keymaps i (fun km =>
              { km with normalized_position :=
                  ((new_pixel_x : ℚ) / width, (new_pixel_y : ℚ) / height) }) }

/-- `distance_moved < 5` of main.py lines 409-421, squared to stay in ℤ:
`sqrt(dx² + dy²) < 5` iff `dx² + dy² < 25`. -/
def clickDistanceBelowThreshold (a b : ℤ × ℤ) : Bool :=
  (b.1 - a.1) ^ 2 + (b.2 - a.2) ^ 2 < 25

/-- The default keymap created by a small click (main.py lines 425-440):
pixel diameter 100, top-left at the release point minus `100 // 2 = 50`
per axis, normalized against the overlay size. -/
def defaultClickKeymap (width height : ℤ) (release_pos : ℤ × ℤ) : Keymap where
  normalized_size := ((100 : ℚ) / width, (100 : ℚ) / height)
  keycombo := []
  normalized_position :=
    (((release_pos.1 - 50 : ℤ) : ℚ) / width, ((release_pos.2 - 50 : ℤ) : ℚ) / height)
  type := "circle"

/-- `OverlayWidget.mouseReleaseEvent` (main.py lines 401-457) for a
left-button release at `pos`.  Returns the new state and the emitted
snapshots. -/
def OverlayWidget.mouseReleaseEvent (width height : ℤ) (pos : ℤ × ℤ)
    (s : OverlayState) : OverlayState × List (List Keymap) :=
  if s.edit_mode_active = false then (s, [])
  else
    match s.dragging_keymap with
    | none => (s, [])
    | some i =>
        let isClick := clickDistanceBelowThreshold s.drag_start_pos_local pos
        let s1 :=
          if s.creating_keymap then
            if isClick then
              let erased := s.keymaps.eraseIdx i
              { s with keymaps := erased ++ [defaultClickKeymap width height pos],
                       selected_keymap_for_combo_edit := some erased.length }
            else
              { s with selected_keymap_for_combo_edit := some i }
          else
            if isClick then
              { s with selected_keymap_for_combo_edit := some i }
            else s
        let s2 := { s1 with dragging_keymap := none, creating_keymap := false }
        (s2, [s2.keymaps])

/-- The invariant claimed by the spec: position and position + size inside
the unit square. -/
def inUnitSquare (km : Keymap) : Bool :=
  decide (0 ≤ km.normalized_position.1) && decide (0 ≤ km.normalized_position.2) &&
  decide (km.normalized_position.1 ≤ 1) && decide (km.normalized_position.2 ≤ 1) &&
  decide (km.normalized_position.1 + km.normalized_size.1 ≤ 1) &&
  decide (km.normalized_position.2 + km.normalized_size.2 ≤ 1)

/-! ### Sample data (concrete keymaps and states used in scenarios) -/

/-- The first default keymap written by `load_keymaps_from_local_json` when no
file exists (main.py lines 967-970): a two-key combo `[Shift, A]`. -/
def initial_keymap_circle : Keymap where
  normalized_size := (100 / SCRCPY_NATIVE_WIDTH, 100 / SCRCPY_NATIVE_HEIGHT)
  keycombo := [Qt_Key_Shift, Qt_Key_A]
  normalized_position := (50 / SCRCPY_NATIVE_WIDTH, 50 / SCRCPY_NATIVE_HEIGHT)
  type := "circle"

/-- The second default keymap (main.py lines 971-975): single-key combo `[A]`. -/
def secondary_keymap_circle : Keymap where
  normalized_size := (100 / SCRCPY_NATIVE_WIDTH, 100 / SCRCPY_NATIVE_HEIGHT)
  keycombo := [Qt_Key_A]
  normalized_position := (400 / SCRCPY_NATIVE_WIDTH, 300 / SCRCPY_NATIVE_HEIGHT)
  type := "circle"

/-- The keymap of the spec's play-mode tap scenario: `key_combo[0] == K`,
`normalized_position = (0.5, 0.5)`, `normalized_size = (0.05, 0.05)`. -/
def scenario_keymap : Keymap where
  normalized_size := (1 / 20, 1 / 20)
  keycombo := [Qt_Key_K]
  normalized_position := (1 / 2, 1 / 2)
  type := "circle"

/-! ### Generic helper lemmas -/

lemma pyTrunc_eq_floor (q : ℚ) (h : 0 ≤ q) : pyTrunc q = ⌊q⌋ := by
  simp [pyTrunc, h]

lemma from_dict_to_dict (km : Keymap) : Keymap.from_dict km.to_dict = some km := rfl

lemma parseAllRecords_save (kms : List Keymap) :
    parseAllRecords (save_keymaps_to_local_json kms) = some kms := by
  induction kms with
  | nil => rfl
  | cons km rest ih =>
      simp only [save_keymaps_to_local_json, List.map_cons] at ih ⊢
      simp only [parseAllRecords, from_dict_to_dict, ih]

lemma matchesKeymap_iff (key : ℤ) (km : Keymap) :
    matchesKeymap key km = true ↔ km.keycombo = [key] := by
  unfold matchesKeymap
  match h : km.keycombo with
  | [] => simp
  | [a] => simp [List.head?]
  | a :: b :: t => simp [List.length]

lemma find_first_match (p : α → Bool) (l₁ l₂ : List α) (a : α)
    (h₁ : ∀ x ∈ l₁, p x = false) (ha : p a = true) :
    (l₁ ++ a :: l₂).find? p = some a := by
  induction l₁ with
  | nil => simp [List.find?, ha]
  | cons b t ih =>
      have hb : p b = false := h₁ b (List.mem_cons_self b t)
      simp only [List.cons_append, List.find?, hb]
      exact ih (fun x hx => h₁ x (List.mem_cons_of_mem b hx))

/-! ### Claim C8 (round-trip persistence) -/

/-- Claim C8: saving a keymap list to the keymap file and loading it back
yields an equal ordered list, field for field. -/
theorem save_then_load_roundtrip (kms : List Keymap) :
    load_keymaps_from_local_json (save_keymaps_to_local_json kms) = kms := by
  simp [load_keymaps_from_local_json, parseAllRecords_save kms]

/-! ### Claim C7 (malformed record handling on load) -/

/-- A well-formed stored record, the serialization of `scenario_keymap`. -/
def goodStoredRecord : RawRecord := Keymap.to_dict scenario_keymap

/-- A malformed stored record: the `normalized_size` key is missing, so
`Keymap.from_dict` raises on it. -/
def malformedStoredRecord : RawRecord where
  normalized_size := none
  keycombo := some []
  normalized_position := some [0, 0]
  type := some "circle"

/-- Claim C7 is false: with one well-formed and one malformed record in the
file, the whole load aborts with an empty result instead of skipping only
the malformed record — the remaining well-formed record is not loaded. -/
theorem malformed_record_aborts_whole_load :
    Keymap.from_dict goodStoredRecord = some scenario_keymap ∧
    load_keymaps_from_local_json [goodStoredRecord, malformedStoredRecord] = [] ∧
    scenario_keymap ∉ load_keymaps_from_local_json [goodStoredRecord, malformedStoredRecord] := by
  refine ⟨rfl, rfl, ?_⟩
  intro h
  simp only [load_keymaps_from_local_json] at h
  exact absurd h (by simp [parseAllRecords, malformedStoredRecord, Keymap.from_dict])

/-- Claim C7 amended: per-record parse failures are not skipped — one
malformed record aborts the whole load and the store starts empty; only
when every record parses are they all loaded, in order. -/
theorem load_is_all_or_nothing (data : List RawRecord) :
    (parseAllRecords data = none ↔ ∃ d ∈ data, Keymap.from_dict d = none) ∧
    (parseAllRecords data = none → load_keymaps_from_local_json data = []) ∧
    (∀ kms, parseAllRecords data = some kms → load_keymaps_from_local_json data = kms) := by
  refine ⟨?_, ?_, ?_⟩
  · induction data with
    | nil => simp [parseAllRecords]
    | cons d rest ih =>
        simp only [parseAllRecords]
        match hd : Keymap.from_dict d with
        | none => simp [hd]
        | some km =>
            match hr : parseAllRecords rest with
            | none => simpa [hd, hr] using (by simpa [hr] using ih)
            | some kms =>
                simp only [hd, hr] at ih ⊢
                simp only [List.mem_cons]
                constructor
                · intro h; exact absurd h (by simp)
                · rintro ⟨x, hx | hx, hxn⟩
                  · exact absurd (hx ▸ hd) (by simp [hxn])
                  · exact absurd (ih.mpr ⟨x, hx, hxn⟩) (by simp)
  · intro h; simp [load_keymaps_from_local_json, h]
  · intro kms h; simp [load_keymaps_from_local_json, h]

/-- Witness for `load_is_all_or_nothing` at the concrete malformed file. -/
theorem load_is_all_or_nothing_witness :
    parseAllRecords [goodStoredRecord, malformedStoredRecord] = none ∧
    load_keymaps_from_local_json [goodStoredRecord, malformedStoredRecord] = [] :=
  ⟨rfl, (load_is_all_or_nothing [goodStoredRecord, malformedStoredRecord]).2.1 rfl⟩

/-! ### Claim C5 (command dispatch and the control channel) -/

/-- Claim C5 is false: dispatching a single tap command spawns a fresh adb
process, and dispatching two commands spawns two — there is no long-lived
channel that is reused. -/
theorem each_dispatch_spawns_fresh_process :
    send_scrcpy_tap (some 343) 100 200 = [SpawnedProcess.adbTap DEVICE_IP 343 100 200] ∧
    (send_scrcpy_tap (some 343) 100 200 ++
     send_adb_keyevent (some 343) "KEYCODE_BACK").length = 2 :=
  ⟨rfl, rfl⟩

/-- Claim C5 amended: every tap or keyevent dispatch with a detected display
id spawns exactly one fresh adb process per command (and dispatches nothing
when no display id is known); no control channel exists, so none is reused. -/
theorem dispatch_spawning_behavior :
    (∀ d x y, send_scrcpy_tap (some d) x y = [SpawnedProcess.adbTap DEVICE_IP d x y]) ∧
    (∀ d kc, send_adb_keyevent (some d) kc = [SpawnedProcess.adbKeyevent DEVICE_IP kc]) ∧
    (∀ x y, send_scrcpy_tap none x y = []) ∧
    (∀ kc, send_adb_keyevent none kc = []) :=
  ⟨fun _ _ _ => rfl, fun _ _ => rfl, fun _ _ => rfl, fun _ => rfl⟩

/-! ### Claim C1 (play-mode activation condition) -/

/-- Claim C1 is false: the code's own default keymap with two-key combo
`[Shift, A]` is not activated by a press of its first combo key (Shift) —
the guard also requires `len(keycombo) == 1`, so no tap is dispatched and
the event is not consumed. -/
theorem play_two_key_combo_never_activates :
    initial_keymap_circle.keycombo.head? = some Qt_Key_Shift ∧
    MyQtApp.keyPressEvent_play (some 343) [initial_keymap_circle] Qt_Key_Shift =
      ([], false) :=
  ⟨rfl, rfl⟩

/-- Claim C1 amended: in play mode a (non-Escape) key press activates some
keymap exactly when a keymap's stored combo is the single key `[key]`; a
keymap whose combo holds two keys is never activated, not even by its
first combo key. -/
theorem play_activation_iff_single_key_combo (d : ℤ) (kms : List Keymap)
    (key : ℤ) (hk : key ≠ Qt_Key_Escape) :
    (MyQtApp.keyPressEvent_play (some d) kms key).2 = true ↔
      ∃ km ∈ kms, km.keycombo = [key] := by
  unfold MyQtApp.keyPressEvent_play
  rw [if_neg hk]
  match hf : kms.find? (matchesKeymap key) with
  | some km =>
      have hx : ∃ km2 ∈ kms, km2.keycombo = [key] :=
        ⟨km, List.mem_of_find?_eq_some hf, (matchesKeymap_iff key km).mp (List.find?_some hf)⟩
      simpa using hx
  | none =>
      have hx : ¬ ∃ km2 ∈ kms, km2.keycombo = [key] := by
        rintro ⟨km, hmem, hcombo⟩
        exact List.find?_eq_none.mp hf km hmem ((matchesKeymap_iff key km).mpr hcombo)
      simpa using hx

/-- Witness for `play_activation_iff_single_key_combo` at the default
single-key keymap and key A. -/
theorem play_activation_iff_single_key_combo_witness :
    Qt_Key_A ≠ Qt_Key_Escape ∧
    ((MyQtApp.keyPressEvent_play (some 343) [secondary_keymap_circle] Qt_Key_A).2 = true ↔
      ∃ km ∈ [secondary_keymap_circle], km.keycombo = [Qt_Key_A]) :=
  ⟨by decide, play_activation_iff_single_key_combo 343 [secondary_keymap_circle] Qt_Key_A (by decide)⟩

/-! ### Claim C2 (native tap coordinates) -/

lemma tapCenter_scenario : tapCenter scenario_keymap = (1008, 567) := by
  unfold tapCenter scenario_keymap SCRCPY_NATIVE_WIDTH SCRCPY_NATIVE_HEIGHT pyTrunc
  norm_num

/-- Claim C2 is false at its own scenario: for the keymap with
`normalized_position = (0.5, 0.5)` and `normalized_size = (0.05, 0.05)` the
code dispatches the tap at native pixel `(1008, 567)`, not `(1008, 540)` —
`int(0.5·1080 + 0.05·1080/2) = 567`. -/
theorem tap_scenario_dispatches_567_not_540 :
    MyQtApp.keyPressEvent_play (some 343) [scenario_keymap] Qt_Key_K =
      ([SpawnedProcess.adbTap DEVICE_IP 343 1008 567], true) ∧ (567 : ℤ) ≠ 540 := by
  constructor
  · unfold MyQtApp.keyPressEvent_play
    rw [if_neg (by decide : ¬ Qt_Key_K = Qt_Key_Escape)]
    rw [show [scenario_keymap].find? (matchesKeymap Qt_Key_K) = some scenario_keymap from rfl]
    show (send_scrcpy_tap (some 343) (tapCenter scenario_keymap).1
          (tapCenter scenario_keymap).2, true) = _
    rw [tapCenter_scenario]
    rfl
  · decide

/-- Claim C2 amended: for a play-mode key press whose first match in list
order is `km`, the dispatched tap coordinates are
`int(normalized_position · nativeSize + normalized_size · nativeSize / 2)`
per axis with the fixed native resolution 1920×1080; at the scenario keymap
(`position (0.5, 0.5)`, `size (0.05, 0.05)`) the tap is at native pixel
`(1008, 567)`. -/
theorem play_tap_center_formula (d : ℤ) (kms₁ kms₂ : List Keymap)
    (km : Keymap) (key : ℤ)
    (hk : key ≠ Qt_Key_Escape)
    (h₁ : ∀ km2 ∈ kms₁, matchesKeymap key km2 = false)
    (hm : matchesKeymap key km = true) :
    MyQtApp.keyPressEvent_play (some d) (kms₁ ++ km :: kms₂) key =
      ([SpawnedProcess.adbTap DEVICE_IP d
          (pyTrunc (km.normalized_position.1 * SCRCPY_NATIVE_WIDTH +
                    km.normalized_size.1 * SCRCPY_NATIVE_WIDTH / 2))
          (pyTrunc (km.normalized_position.2 * SCRCPY_NATIVE_HEIGHT +
                    km.normalized_size.2 * SCRCPY_NATIVE_HEIGHT / 2))], true) ∧
    tapCenter scenario_keymap = (1008, 567) := by
  constructor
  · unfold MyQtApp.keyPressEvent_play
    rw [if_neg hk, find_first_match (matchesKeymap key) kms₁ kms₂ km h₁ hm]
    rfl
  · exact tapCenter_scenario

/-- Witness for `play_tap_center_formula` at the scenario keymap. -/
theorem play_tap_center_formula_witness :
    Qt_Key_K ≠ Qt_Key_Escape ∧
    (∀ km2 ∈ ([] : List Keymap), matchesKeymap Qt_Key_K km2 = false) ∧
    matchesKeymap Qt_Key_K scenario_keymap = true ∧
    (MyQtApp.keyPressEvent_play (some 343) ([] ++ scenario_keymap :: []) Qt_Key_K =
      ([SpawnedProcess.adbTap DEVICE_IP 343
          (pyTrunc (scenario_keymap.normalized_position.1 * SCRCPY_NATIVE_WIDTH +
                    scenario_keymap.normalized_size.1 * SCRCPY_NATIVE_WIDTH / 2))
          (pyTrunc (scenario_keymap.normalized_position.2 * SCRCPY_NATIVE_HEIGHT +
                    scenario_keymap.normalized_size.2 * SCRCPY_NATIVE_HEIGHT / 2))], true) ∧
      tapCenter scenario_keymap = (1008, 567)) :=
  ⟨by decide, by simp, by decide,
   play_tap_center_formula 343 [] [] scenario_keymap Qt_Key_K (by decide)
     (by simp) (by decide)⟩

/-! ### Claim C10 (at most one tap per key press, first match wins) -/

/-- A later keymap also bound to key A, used to show that only the first
match in list order dispatches. -/
def duplicate_key_a_keymap : Keymap where
  normalized_size := (1 / 10, 1 / 10)
  keycombo := [Qt_Key_A]
  normalized_position := (3 / 4, 3 / 4)
  type := "circle"

/-- Claim C10: in play mode a single (non-Escape) key press dispatches via
the first keymap in list order whose single-key combo matches, the event is
consumed, later keymaps bound to the same key are ignored, and any key
press spawns at most one process. -/
theorem play_keypress_single_dispatch (d : ℤ) (kms₁ kms₂ : List Keymap)
    (km : Keymap) (key : ℤ)
    (hk : key ≠ Qt_Key_Escape)
    (h₁ : ∀ km2 ∈ kms₁, matchesKeymap key km2 = false)
    (hm : matchesKeymap key km = true) :
    MyQtApp.keyPressEvent_play (some d) (kms₁ ++ km :: kms₂) key =
      (send_scrcpy_tap (some d) (tapCenter km).1 (tapCenter km).2, true) ∧
    ∀ kms key2, ((MyQtApp.keyPressEvent_play (some d) kms key2).1).length ≤ 1 := by
  constructor
  · unfold MyQtApp.keyPressEvent_play
    rw [if_neg hk, find_first_match (matchesKeymap key) kms₁ kms₂ km h₁ hm]
  · intro kms key2
    unfold MyQtApp.keyPressEvent_play
    by_cases hesc : key2 = Qt_Key_Escape
    · rw [if_pos hesc]; simp [send_adb_keyevent]
    · rw [if_neg hesc]
      match kms.find? (matchesKeymap key2) with
      | some km2 => simp [send_scrcpy_tap]
      | none => simp

/-- Witness for `play_keypress_single_dispatch`: key A skips the two-key
default keymap, fires the single-key default keymap, and ignores a later
keymap also bound to A. -/
theorem play_keypress_single_dispatch_witness :
    Qt_Key_A ≠ Qt_Key_Escape ∧
    (∀ km2 ∈ [initial_keymap_circle], matchesKeymap Qt_Key_A km2 = false) ∧
    matchesKeymap Qt_Key_A secondary_keymap_circle = true ∧
    (MyQtApp.keyPressEvent_play (some 343)
        ([initial_keymap_circle] ++ secondary_keymap_circle :: [duplicate_key_a_keymap])
        Qt_Key_A =
      (send_scrcpy_tap (some 343) (tapCenter secondary_keymap_circle).1
        (tapCenter secondary_keymap_circle).2, true) ∧
     ∀ kms key2, ((MyQtApp.keyPressEvent_play (some 343) kms key2).1).length ≤ 1) :=
  ⟨by decide, by decide, by decide,
   play_keypress_single_dispatch 343 [initial_keymap_circle] [duplicate_key_a_keymap]
     secondary_keymap_circle Qt_Key_A (by decide) (by decide) (by decide)⟩

/-! ### Claim C3 (letterboxed overlay geometry) -/

/-- The property asserted of the resolved overlay rectangle for a container
of size `w × h` at origin `(gx, gy)` and aspect ratio `r`: aspect correct
within integer rounding, no larger than the container, and centered in it
(opposite margins are nonnegative and differ by at most one pixel). -/
def letterboxedWithin (r : ℚ) (gx gy w h : ℤ) (g : OverlayGeometry) : Prop :=
  ((-1 : ℚ) < (g.width : ℚ) - r * (g.height : ℚ)) ∧
  ((g.width : ℚ) - r * (g.height : ℚ) < r) ∧
  g.width ≤ w ∧ g.height ≤ h ∧
  0 ≤ g.x - gx ∧ 0 ≤ w - g.width - 2 * (g.x - gx) ∧
  w - g.width - 2 * (g.x - gx) ≤ 1 ∧
  0 ≤ g.y - gy ∧ 0 ≤ h - g.height - 2 * (g.y - gy) ∧
  h - g.height - 2 * (g.y - gy) ≤ 1

lemma pyFloorDiv_two_margins (d : ℤ) (hd : 0 ≤ d) :
    0 ≤ pyFloorDiv d 2 ∧ 0 ≤ d - 2 * pyFloorDiv d 2 ∧ d - 2 * pyFloorDiv d 2 ≤ 1 := by
  rw [pyFloorDiv, Int.fdiv_eq_ediv _ (by norm_num : (0:ℤ) ≤ 2)]
  omega

lemma overlay_geometry_unfold (r : ℚ) (gx gy w h : ℤ) :
    update_global_overlay_geometry r gx gy w h =
      if pyTrunc ((w : ℚ) / r) ≤ h then
        { x := gx + pyFloorDiv (w - w) 2,
          y := gy + pyFloorDiv (h - pyTrunc ((w : ℚ) / r)) 2,
          width := w, height := pyTrunc ((w : ℚ) / r) }
      else
        { x := gx + pyFloorDiv (w - pyTrunc ((h : ℚ) * r)) 2,
          y := gy + pyFloorDiv (h - h) 2,
          width := pyTrunc ((h : ℚ) * r), height := h } := by
  unfold update_global_overlay_geometry
  by_cases hc : pyTrunc ((w : ℚ) / r) ≤ h <;> simp [hc]

/-- Claim C3: for every container `w × h` with `w, h > 0` and aspect ratio
`r > 0`, the resolved overlay rectangle has width/height ratio `r` within
integer rounding, fits inside the container, and is centered in it; for the
1600×1000 container at ratio 16:9 the rectangle is `{0, 50, 1600, 900}`. -/
theorem overlay_geometry_letterboxed (r : ℚ) (gx gy w h : ℤ)
    (hw : 0 < w) (hh : 0 < h) (hr : 0 < r) :
    letterboxedWithin r gx gy w h (update_global_overlay_geometry r gx gy w h) ∧
    update_global_overlay_geometry SCRCPY_ASPECT_VALUE 0 0 1600 1000 =
      { x := 0, y := 50, width := 1600, height := 900 } := by
  constructor
  · have hwq : (0 : ℚ) < (w : ℚ) := by exact_mod_cast hw
    have hhq : (0 : ℚ) < (h : ℚ) := by exact_mod_cast hh
    have htw : pyTrunc ((w : ℚ) / r) = ⌊(w : ℚ) / r⌋ :=
      pyTrunc_eq_floor _ (div_nonneg hwq.le hr.le)
    have hth : pyTrunc ((h : ℚ) * r) = ⌊(h : ℚ) * r⌋ :=
      pyTrunc_eq_floor _ (mul_nonneg hhq.le hr.le)
    rw [overlay_geometry_unfold]
    by_cases hc : pyTrunc ((w : ℚ) / r) ≤ h
    · rw [if_pos hc]
      rw [htw] at hc
      -- floor bounds for t = ⌊w / r⌋
      have hf1 : (⌊(w : ℚ) / r⌋ : ℚ) ≤ (w : ℚ) / r := Int.floor_le _
      have hf2 : (w : ℚ) / r < ⌊(w : ℚ) / r⌋ + 1 := Int.lt_floor_add_one _
      have hb1 : (⌊(w : ℚ) / r⌋ : ℚ) * r ≤ (w : ℚ) := (le_div_iff₀ hr).mp hf1
      have hb2 : (w : ℚ) < ((⌊(w : ℚ) / r⌋ : ℚ) + 1) * r := (div_lt_iff₀ hr).mp hf2
      have hb2' : (w : ℚ) < (⌊(w : ℚ) / r⌋ : ℚ) * r + r := by nlinarith [hb2]
      have hcomm : r * (⌊(w : ℚ) / r⌋ : ℚ) = (⌊(w : ℚ) / r⌋ : ℚ) * r := mul_comm _ _
      obtain ⟨hmx0, hmx1, hmx2⟩ := pyFloorDiv_two_margins (w - w) (by omega)
      obtain ⟨hmy0, hmy1, hmy2⟩ := pyFloorDiv_two_margins (h - ⌊(w : ℚ) / r⌋) (by omega)
      simp only [letterboxedWithin, htw]
      exact ⟨by linarith, by linarith, le_refl w, hc,
        by omega, by omega, by omega, by omega, by omega, by omega⟩
    · rw [if_neg hc]
      rw [htw] at hc
      push_neg at hc
      have hc1 : (h + 1 : ℤ) ≤ ⌊(w : ℚ) / r⌋ := by omega
      have hc2 : ((h : ℚ) + 1) ≤ (w : ℚ) / r := by
        calc ((h : ℚ) + 1) = ((h + 1 : ℤ) : ℚ) := by push_cast; ring
        _ ≤ (⌊(w : ℚ) / r⌋ : ℚ) := by exact_mod_cast hc1
        _ ≤ (w : ℚ) / r := Int.floor_le _
      have hc3 : ((h : ℚ) + 1) * r ≤ (w : ℚ) := (le_div_iff₀ hr).mp hc2
      have hc3' : (h : ℚ) * r + r ≤ (w : ℚ) := by nlinarith [hc3]
      have hf1 : (⌊(h : ℚ) * r⌋ : ℚ) ≤ (h : ℚ) * r := Int.floor_le _
      have hf2 : (h : ℚ) * r < ⌊(h : ℚ) * r⌋ + 1 := Int.lt_floor_add_one _
      have hcomm : r * (h : ℚ) = (h : ℚ) * r := mul_comm _ _
      have hwidth : ⌊(h : ℚ) * r⌋ < w := by
        have hq : (⌊(h : ℚ) * r⌋ : ℚ) < (w : ℚ) := by linarith
        exact_mod_cast hq
      obtain ⟨hmx0, hmx1, hmx2⟩ := pyFloorDiv_two_margins (w - ⌊(h : ℚ) * r⌋) (by omega)
      obtain ⟨hmy0, hmy1, hmy2⟩ := pyFloorDiv_two_margins (h - h) (by omega)
      simp only [letterboxedWithin, hth]
      exact ⟨by linarith, by linarith, by omega, le_refl h,
        by omega, by omega, by omega, by omega, by omega, by omega⟩
  · rw [overlay_geometry_unfold]
    have h1 : pyTrunc ((1600 : ℤ) / SCRCPY_ASPECT_VALUE : ℚ) = 900 := by
      unfold pyTrunc SCRCPY_ASPECT_VALUE
      norm_num
    have h2 : pyFloorDiv (1000 - 900) 2 = 50 := by decide
    have h3 : pyFloorDiv (1600 - 1600) 2 = 0 := by decide
    rw [show ((1600 : ℤ) : ℚ) = (1600 : ℚ) by norm_num] at h1 ⊢
    rw [h1, if_pos (by norm_num : (900 : ℤ) ≤ 1000), h3, h2]
    rfl

/-- Witness for `overlay_geometry_letterboxed` at the 1600×1000 scenario. -/
theorem overlay_geometry_letterboxed_witness :
    (0 : ℤ) < 1600 ∧ (0 : ℤ) < 1000 ∧ (0 : ℚ) < SCRCPY_ASPECT_VALUE ∧
    (letterboxedWithin SCRCPY_ASPECT_VALUE 0 0 1600 1000
        (update_global_overlay_geometry SCRCPY_ASPECT_VALUE 0 0 1600 1000) ∧
      update_global_overlay_geometry SCRCPY_ASPECT_VALUE 0 0 1600 1000 =
        { x := 0, y := 50, width := 1600, height := 900 }) :=
  ⟨by norm_num, by norm_num, by norm_num [SCRCPY_ASPECT_VALUE],
   overlay_geometry_letterboxed SCRCPY_ASPECT_VALUE 0 0 1600 1000
     (by norm_num) (by norm_num) (by norm_num [SCRCPY_ASPECT_VALUE])⟩

/-! ### Claim C4 (the [0,1]² invariant under edit-mode moves) -/

lemma listModify_get? (l : List α) (i : ℕ) (f : α → α) :
    (listModify l i f).get? i = (l.get? i).map f := by
  induction l generalizing i with
  | nil => cases i <;> rfl
  | cons a t ih =>
      cases i with
      | zero => rfl
      | succ n => simpa [listModify] using ih n

lemma listModify_length (l : List α) (i : ℕ) (f : α → α) :
    (listModify l i f).length = l.length := by
  induction l generalizing i with
  | nil => rfl
  | cons a t ih =>
      cases i with
      | zero => rfl
      | succ n => simp [listModify, ih n]

/-- A keymap sitting at the center of the unit square. -/
def sample_move_keymap : Keymap where
  normalized_size := (1 / 10, 1 / 10)
  keycombo := []
  normalized_position := (1 / 2, 1 / 2)
  type := "circle"

/-- Mid-drag state on a 100×100 overlay: `sample_move_keymap` (pixel rect at
(50,50)) grabbed at (55,55). -/
def sample_move_state : OverlayState where
  keymaps := [sample_move_keymap]
  edit_mode_active := true
  dragging_keymap := some 0
  creating_keymap := false
  drag_start_pos_local := (55, 55)
  keymap_original_pixel_pos := (50, 50)
  selected_keymap_for_combo_edit := none
  pending_modifier_key := none

/-- Claim C4 is false: dragging the keymap from (55,55) to (155,155) on a
100×100 overlay moves its normalized position to (3/2, 3/2) — the move is
not clamped and the shape escapes [0,1]². -/
theorem move_escapes_unit_square :
    inUnitSquare sample_move_keymap = true ∧
    (OverlayWidget.mouseMoveEvent 100 100 (155, 155)
        sample_move_state).keymaps.all inUnitSquare = false := by
  constructor
  · simp only [inUnitSquare, sample_move_keymap, Bool.and_eq_true, decide_eq_true_eq]
    norm_num
  · simp only [OverlayWidget.mouseMoveEvent, sample_move_state, listModify]
    norm_num [List.all, inUnitSquare, sample_move_keymap]

/-- Claim C4 amended: an edit-mode move of an existing keymap sets its
normalized position to (original pixel position + pointer delta) divided by
the overlay size, with no clamping whatsoever — so position and
position + size are free to leave [0,1]²; the keymap's size and the list
length are unchanged. -/
theorem move_translates_without_clamping (width height : ℤ) (pos : ℤ × ℤ)
    (s : OverlayState) (i : ℕ) (km : Keymap)
    (hedit : s.edit_mode_active = true)
    (hdrag : s.dragging_keymap = some i)
    (hcr : s.creating_keymap = false)
    (hkm : s.keymaps.get? i = some km) :
    (OverlayWidget.mouseMoveEvent width height pos s).keymaps.get? i =
      some { km with normalized_position :=
        (((s.keymap_original_pixel_pos.1 + (pos.1 - s.drag_start_pos_local.1) : ℤ) : ℚ) / (width : ℚ),
         ((s.keymap_original_pixel_pos.2 + (pos.2 - s.drag_start_pos_local.2) : ℤ) : ℚ) / (height : ℚ)) } ∧
    (OverlayWidget.mouseMoveEvent width height pos s).keymaps.length = s.keymaps.length := by
  unfold OverlayWidget.mouseMoveEvent
  rw [hedit, hdrag]
  simp only [Bool.true_eq_false, Bool.false_eq_true, if_false, hcr]
  constructor
  · rw [listModify_get?, hkm]
    rfl
  · exact listModify_length s.keymaps i _

/-- Witness for `move_translates_without_clamping` at the concrete escaping
move. -/
theorem move_translates_without_clamping_witness :
    sample_move_state.edit_mode_active = true ∧
    sample_move_state.dragging_keymap = some 0 ∧
    sample_move_state.creating_keymap = false ∧
    sample_move_state.keymaps.get? 0 = some sample_move_keymap ∧
    ((OverlayWidget.mouseMoveEvent 100 100 (155, 155) sample_move_state).keymaps.get? 0 =
      some { sample_move_keymap with normalized_position :=
        (((sample_move_state.keymap_original_pixel_pos.1 +
            (((155, 155) : ℤ × ℤ).1 - sample_move_state.drag_start_pos_local.1) : ℤ) : ℚ) / ((100 : ℤ) : ℚ),
         ((sample_move_state.keymap_original_pixel_pos.2 +
            (((155, 155) : ℤ × ℤ).2 - sample_move_state.drag_start_pos_local.2) : ℤ) : ℚ) / ((100 : ℤ) : ℚ)) } ∧
     (OverlayWidget.mouseMoveEvent 100 100 (155, 155) sample_move_state).keymaps.length =
       sample_move_state.keymaps.length) :=
  ⟨rfl, rfl, rfl, rfl,
   move_translates_without_clamping 100 100 (155, 155) sample_move_state 0
     sample_move_keymap rfl rfl rfl rfl⟩

/-! ### Claim C6 (leaving edit mode during an in-progress creation) -/

/-- A pre-existing keymap whose 100×100-overlay pixel rectangle is
(50, 50, 10, 10), away from the press point used below. -/
def sample_exit_keymap : Keymap where
  normalized_size := (1 / 10, 1 / 10)
  keycombo := [Qt_Key_A]
  normalized_position := (1 / 2, 1 / 2)
  type := "circle"

/-- Quiescent edit-mode state holding only `sample_exit_keymap`. -/
def sample_edit_state : OverlayState where
  keymaps := [sample_exit_keymap]
  edit_mode_active := true
  dragging_keymap := none
  creating_keymap := false
  drag_start_pos_local := (0, 0)
  keymap_original_pixel_pos := (0, 0)
  selected_keymap_for_combo_edit := none
  pending_modifier_key := none

lemma press_empty_sample :
    OverlayWidget.mousePressEvent 100 100 (10, 10) sample_edit_state =
      ({ sample_edit_state with
           drag_start_pos_local := (10, 10),
           creating_keymap := true,
           keymaps := [sample_exit_keymap, creationPlaceholder 100 100 (10, 10)],
           dragging_keymap := some 1 }, []) := by
  unfold OverlayWidget.mousePressEvent
  norm_num [sample_edit_state, sample_exit_keymap, findHitKeymap, qrectContains,
    keymapPixelRect, spanLow, spanHigh]

/-- Claim C6 is false: a pointer-down on empty space appends a placeholder
keymap, and leaving edit mode mid-creation does not remove it — the
placeholder stays in the store and is part of the snapshot emitted for
persistence. -/
theorem placeholder_persisted_on_edit_exit :
    (OverlayWidget.mousePressEvent 100 100 (10, 10) sample_edit_state).1.creating_keymap = true ∧
    (OverlayWidget.set_edit_mode false
        (OverlayWidget.mousePressEvent 100 100 (10, 10) sample_edit_state).1).2 =
      [[sample_exit_keymap, creationPlaceholder 100 100 (10, 10)]] ∧
    creationPlaceholder 100 100 (10, 10) ∈
      ((OverlayWidget.set_edit_mode false
          (OverlayWidget.mousePressEvent 100 100 (10, 10) sample_edit_state).1).2.headD []) ∧
    (OverlayWidget.set_edit_mode false
        (OverlayWidget.mousePressEvent 100 100 (10, 10) sample_edit_state).1).1.keymaps =
      [sample_exit_keymap, creationPlaceholder 100 100 (10, 10)] := by
  rw [press_empty_sample]
  refine ⟨rfl, rfl, ?_, rfl⟩
  simp [OverlayWidget.set_edit_mode]

/-- Claim C6 amended: leaving edit mode clears only the transient editing
references and emits the keymap list unchanged as the persisted snapshot;
an in-progress creation placeholder is therefore not discarded — it remains
in the store (and hence in the snapshot). -/
theorem exit_edit_mode_keeps_store :
    (∀ s, OverlayWidget.set_edit_mode false s =
      ({ s with edit_mode_active := false, dragging_keymap := none, creating_keymap := false,
                selected_keymap_for_combo_edit := none, pending_modifier_key := none },
       [s.keymaps])) ∧
    creationPlaceholder 100 100 (10, 10) ∈
      (OverlayWidget.set_edit_mode false
        (OverlayWidget.mousePressEvent 100 100 (10, 10) sample_edit_state).1).1.keymaps := by
  constructor
  · intro s; rfl
  · rw [press_empty_sample]
    simp [OverlayWidget.set_edit_mode]

/-! ### Claim C9 (small click creates a default-diameter keymap) -/

/-- Claim C9: releasing the pointer during a creation drag with total
movement below the 5 px threshold removes the drag placeholder, appends a
fresh keymap of default pixel diameter 100 whose top-left pixel corner is
the release point minus 50 per axis (normalized), selects that new keymap
for combo assignment, and emits the snapshot; at a click at (300, 300) on a
1000×500 overlay the new top-left pixel position is (250, 250). -/
theorem small_click_creates_default_keymap (width height : ℤ) (pos : ℤ × ℤ)
    (s : OverlayState) (i : ℕ)
    (hedit : s.edit_mode_active = true)
    (hdrag : s.dragging_keymap = some i)
    (hcr : s.creating_keymap = true)
    (hclick : clickDistanceBelowThreshold s.drag_start_pos_local pos = true) :
    OverlayWidget.mouseReleaseEvent width height pos s =
      ({ s with keymaps := s.keymaps.eraseIdx i ++ [defaultClickKeymap width height pos],
                selected_keymap_for_combo_edit := some (s.keymaps.eraseIdx i).length,
                dragging_keymap := none,
                creating_keymap := false },
       [s.keymaps.eraseIdx i ++ [defaultClickKeymap width height pos]]) ∧
    defaultClickKeymap width height pos =
      { normalized_size := ((100 : ℚ) / (width : ℚ), (100 : ℚ) / (height : ℚ)),
        keycombo := [],
        normalized_position := (((pos.1 - 50 : ℤ) : ℚ) / (width : ℚ),
                                ((pos.2 - 50 : ℤ) : ℚ) / (height : ℚ)),
        type := "circle" } ∧
    (defaultClickKeymap 1000 500 (300, 300)).normalized_position =
      ((250 : ℚ) / 1000, (250 : ℚ) / 500) := by
  refine ⟨?_, rfl, ?_⟩
  · simp only [OverlayWidget.mouseReleaseEvent, hedit, hdrag, hcr, hclick,
      Bool.true_eq_false, Bool.false_eq_true, if_false, eq_self_iff_true, if_true]
  · simp only [defaultClickKeymap]
    norm_num

/-- In-progress creation state on a 1000×500 overlay: the placeholder was
appended at index 1 by a press at (300, 300). -/
def sample_release_state : OverlayState where
  keymaps := [sample_exit_keymap, creationPlaceholder 1000 500 (300, 300)]
  edit_mode_active := true
  dragging_keymap := some 1
  creating_keymap := true
  drag_start_pos_local := (300, 300)
  keymap_original_pixel_pos := (0, 0)
  selected_keymap_for_combo_edit := none
  pending_modifier_key := none

/-- Witness for `small_click_creates_default_keymap`: a zero-movement click
at (300, 300). -/
theorem small_click_creates_default_keymap_witness :
    sample_release_state.edit_mode_active = true ∧
    sample_release_state.dragging_keymap = some 1 ∧
    sample_release_state.creating_keymap = true ∧
    clickDistanceBelowThreshold sample_release_state.drag_start_pos_local (300, 300) = true ∧
    (OverlayWidget.mouseReleaseEvent 1000 500 (300, 300) sample_release_state =
      ({ sample_release_state with
           keymaps := sample_release_state.keymaps.eraseIdx 1 ++
             [defaultClickKeymap 1000 500 (300, 300)],
           selected_keymap_for_combo_edit :=
             some (sample_release_state.keymaps.eraseIdx 1).length,
           dragging_keymap := none,
           creating_keymap := false },
       [sample_release_state.keymaps.eraseIdx 1 ++ [defaultClickKeymap 1000 500 (300, 300)]]) ∧
     defaultClickKeymap 1000 500 (300, 300) =
       { normalized_size := ((100 : ℚ) / ((1000 : ℤ) : ℚ), (100 : ℚ) / ((500 : ℤ) : ℚ)),
         keycombo := [],
         normalized_position := (((((300, 300) : ℤ × ℤ).1 - 50 : ℤ) : ℚ) / ((1000 : ℤ) : ℚ),
                                 ((((300, 300) : ℤ × ℤ).2 - 50 : ℤ) : ℚ) / ((500 : ℤ) : ℚ)),
         type := "circle" } ∧
     (defaultClickKeymap 1000 500 (300, 300)).normalized_position =
       ((250 : ℚ) / 1000, (250 : ℚ) / 500)) :=
  ⟨rfl, rfl, rfl, rfl,
   small_click_creates_default_keymap 1000 500 (300, 300) sample_release_state 1
     rfl rfl rfl rfl⟩
